import Mathlib

/-!
Shallow embedding of the fs-onedatafs adapter (PyFilesystem bindings for the
Onedata virtual filesystem), translated from `src/fs_onedatafs/_onedatafs.py`
and `src/fs/onedatafs/_util.py`.

The package declares support for Python 3.5 - 3.10 only (`setup.py`
classifiers), so Python 3 semantics govern the embedding: in particular a
`bytes` value compares unequal to every `str` value, and exception objects
have no `.message` attribute.

The remote native client (`onedatafs` module) is external to the repository;
its primitives (`stat`, `readdir`, `getxattr`, positioned `read`/`write`,
`unlink`, ...) are modelled as explicit function parameters or as slices of a
given byte/entry list, following the behaviour the adapter's own code and the
specification ascribe to them.
-/

/-- Python 3 string-like values: `str` or `bytes`.  `toAscii` produces a
`bytes` value, which in Python 3 is never `==` to any `str` value. -/
inductive PyVal where
  | pstr (s : String)
  | pbytes (s : String)
deriving DecidableEq

/-- Python 3 `==` on `str`/`bytes`: same-type comparison compares contents,
cross-type comparison is always `False` (no coercion in Python 3). -/
def pyEq : PyVal → PyVal → Bool
  | PyVal.pstr a, PyVal.pstr b => a == b
  | PyVal.pbytes a, PyVal.pbytes b => a == b
  | _, _ => false

/-- `s.encode('ascii', 'replace')` character translation: every non-ASCII
character is replaced by `?`; ASCII characters pass through. -/
def asciiReplace (s : String) : String :=
  String.mk (s.data.map (fun c => if c.toNat ≤ 127 then c else '?'))

/-- `toAscii(path)` from `_onedatafs.py`: `path.encode('ascii', 'replace')`,
a Python 3 `bytes` value. -/
def toAscii (s : String) : PyVal :=
  PyVal.pbytes (asciiReplace s)

/-- Failure vocabulary of the adapter: the typed `fs.errors` exceptions it
raises, plus the Python-level errors its code can produce (`ValueError`,
`IOError`, `AttributeError`) and an opaque remote failure. -/
inductive PyError where
  | resourceNotFound
  | removeRootError
  | directoryExpected
  | fileExpected
  | directoryNotEmpty
  | valueError
  | ioError
  | attributeError
  | remoteError
deriving DecidableEq

/- ------------------------------------------------------------------ -/
/- Attribute translation (`statToPermissions` / `stat_to_permissions`) -/
/- ------------------------------------------------------------------ -/

def S_IROTH : Nat := 0o4
def S_IWOTH : Nat := 0o2
def S_IXOTH : Nat := 0o1
def S_IRGRP : Nat := 0o40
def S_IWGRP : Nat := 0o20
def S_IXGRP : Nat := 0o10
def S_IRUSR : Nat := 0o400
def S_IWUSR : Nat := 0o200
def S_IXUSR : Nat := 0o100
def S_ISVTX : Nat := 0o1000
def S_ISUID : Nat := 0o4000
def S_ISGID : Nat := 0o2000
def S_IFMT : Nat := 0o170000
def S_IFDIR : Nat := 0o040000
def S_IFREG : Nat := 0o100000

/-- `stat.S_ISDIR(mode)`. -/
def S_ISDIR (mode : Nat) : Bool := mode &&& S_IFMT == S_IFDIR

/-- `stat.S_ISREG(mode)`. -/
def S_ISREG (mode : Nat) : Bool := mode &&& S_IFMT == S_IFREG

/-- The arguments the adapter passes to the `fs.permissions.Permissions`
constructor: three 3-character `r`/`w`/`x`/`-` strings and the three special
flags (each passed as a mask-test whose Python truthiness is the flag). -/
structure PermRecord where
  user : String
  group : String
  other : String
  sticky : Bool
  setuid : Bool
  setguid : Bool
deriving DecidableEq

/-- `statToPermissions(attr)` from `src/fs_onedatafs/_onedatafs.py`:
each of the 9 permission bits is tested with `mask & mode` (an `int` whose
truthiness is `≠ 0`) and rendered as one character; the sticky/setuid/setgid
masks are passed through (their truthiness recorded as the flag). -/
def statToPermissions (mode : Nat) : PermRecord :=
  let other :=
    (if S_IROTH &&& mode ≠ 0 then "r" else "-")
    ++ (if S_IWOTH &&& mode ≠ 0 then "w" else "-")
    ++ (if S_IXOTH &&& mode ≠ 0 then "x" else "-")
  let group :=
    (if S_IRGRP &&& mode ≠ 0 then "r" else "-")
    ++ (if S_IWGRP &&& mode ≠ 0 then "w" else "-")
    ++ (if S_IXGRP &&& mode ≠ 0 then "x" else "-")
  let user :=
    (if S_IRUSR &&& mode ≠ 0 then "r" else "-")
    ++ (if S_IWUSR &&& mode ≠ 0 then "w" else "-")
    ++ (if S_IXUSR &&& mode ≠ 0 then "x" else "-")
  { user := user, group := group, other := other,
    sticky := S_ISVTX &&& mode ≠ 0,
    setuid := S_ISUID &&& mode ≠ 0,
    setguid := S_ISGID &&& mode ≠ 0 }

/-- `stat_to_permissions(attr)` from `src/fs/onedatafs/_util.py`: the second,
textually identical copy of the translator shipped in the repository. -/
def stat_to_permissions (mode : Nat) : PermRecord :=
  let other :=
    (if S_IROTH &&& mode ≠ 0 then "r" else "-")
    ++ (if S_IWOTH &&& mode ≠ 0 then "w" else "-")
    ++ (if S_IXOTH &&& mode ≠ 0 then "x" else "-")
  let group :=
    (if S_IRGRP &&& mode ≠ 0 then "r" else "-")
    ++ (if S_IWGRP &&& mode ≠ 0 then "w" else "-")
    ++ (if S_IXGRP &&& mode ≠ 0 then "x" else "-")
  let user :=
    (if S_IRUSR &&& mode ≠ 0 then "r" else "-")
    ++ (if S_IWUSR &&& mode ≠ 0 then "w" else "-")
    ++ (if S_IXUSR &&& mode ≠ 0 then "x" else "-")
  { user := user, group := group, other := other,
    sticky := S_ISVTX &&& mode ≠ 0,
    setuid := S_ISUID &&& mode ≠ 0,
    setguid := S_ISGID &&& mode ≠ 0 }

/-- One `r`/`w`/`x` triple rendered from three independent bits. -/
def rwxTriple (r w x : Bool) : String :=
  (if r then "r" else "-") ++ (if w then "w" else "-") ++ (if x then "x" else "-")

/-- Independent bitwise evaluation of the 9 permission bits and 3 flag bits
of a mode word, via `Nat.testBit` (spec-side reference formulation). -/
def specPermissions (mode : Nat) : PermRecord :=
  { user := rwxTriple (mode.testBit 8) (mode.testBit 7) (mode.testBit 6),
    group := rwxTriple (mode.testBit 5) (mode.testBit 4) (mode.testBit 3),
    other := rwxTriple (mode.testBit 2) (mode.testBit 1) (mode.testBit 0),
    sticky := mode.testBit 9,
    setuid := mode.testBit 11,
    setguid := mode.testBit 10 }

/-- The 9-character permission string (user, group, other) rendered from a
permission record, as in the repository's own unit test expectations. -/
def permAsStr (p : PermRecord) : String :=
  p.user ++ p.group ++ p.other

/- --------------------------------------- -/
/- File handle close (`OnedataFile.close`) -/
/- --------------------------------------- -/

/-- Observable close-related state of an `OnedataFile`: the `closed` flag
maintained by `io.RawIOBase` and the number of times the underlying
`handle.close()` has been invoked. -/
structure CloseState where
  closed : Bool
  closeCalls : Nat
deriving DecidableEq

/-- `OnedataFile.close()`: if `self.closed` the body is skipped entirely
(no raise, no underlying call); otherwise it invokes `self.handle.close()`
inside `try`, and the `finally` clause marks the handle closed via
`super().close()` even when the underlying close raises (`fails = true`
models an underlying close that raises; the exception propagates). -/
def OnedataFile.close (fails : Bool) (s : CloseState) : CloseState × Except PyError Unit :=
  if s.closed then (s, Except.ok ())
  else
    (CloseState.mk true (s.closeCalls + 1),
     if fails then Except.error PyError.remoteError else Except.ok ())

/-- Claim C9: for every file handle, `close()` is idempotent: a second call
does not raise and does not re-invoke the underlying handle's close; and even
if the underlying close raises, the handle is still marked closed. -/
theorem close_idempotent_marks_closed (fails fails2 : Bool) (s : CloseState) :
    (OnedataFile.close fails s).1.closed = true ∧
    OnedataFile.close fails2 (OnedataFile.close fails s).1
      = ((OnedataFile.close fails s).1, Except.ok ()) := by
  cases s with
  | mk closed calls =>
    cases closed <;> cases fails <;> cases fails2 <;>
      simp [OnedataFile.close]

/-- Helper: a single-bit mask test `m & mode` is truthy exactly when the
corresponding bit of `mode` is set. -/
theorem maskTest (mode i m : Nat) (hm : m = 2 ^ i) : (m &&& mode ≠ 0) ↔ mode.testBit i := by
  rw [hm, Nat.two_pow_and]
  cases h : mode.testBit i <;> simp

/-- Helper: the adapter's translator agrees with the independent bitwise
evaluation on every mode word. -/
theorem stat_eq_spec (mode : Nat) : statToPermissions mode = specPermissions mode := by
  have h0 := maskTest mode 0 1 (by norm_num)
  have h1 := maskTest mode 1 2 (by norm_num)
  have h2 := maskTest mode 2 4 (by norm_num)
  have h3 := maskTest mode 3 8 (by norm_num)
  have h4 := maskTest mode 4 16 (by norm_num)
  have h5 := maskTest mode 5 32 (by norm_num)
  have h6 := maskTest mode 6 64 (by norm_num)
  have h7 := maskTest mode 7 128 (by norm_num)
  have h8 := maskTest mode 8 256 (by norm_num)
  have h9 := maskTest mode 9 512 (by norm_num)
  have h10 := maskTest mode 10 1024 (by norm_num)
  have h11 := maskTest mode 11 2048 (by norm_num)
  simp only [statToPermissions, specPermissions, rwxTriple,
    S_IROTH, S_IWOTH, S_IXOTH, S_IRGRP, S_IWGRP, S_IXGRP,
    S_IRUSR, S_IWUSR, S_IXUSR, S_ISVTX, S_ISUID, S_ISGID,
    h0, h1, h2, h3, h4, h5, h6, h7, h8, h9, h10, h11]
  simp

/-- Claim C8: for every mode value in 0..0o7777, the stat-to-permissions
translation (both copies shipped in the repository) produces a
user/group/other x r/w/x grid plus sticky/setuid/setgid flags exactly
matching independent bitwise evaluation of the 9 permission bits and 3 flag
bits; mode 0o777 renders "rwxrwxrwx", 0o700 renders "rwx------", 0o644
renders "rw-r--r--".  The translator is a total function with no error
path. -/
theorem statToPermissions_matches_bitwise :
    (∀ m : Fin 4096, statToPermissions m.val = specPermissions m.val) ∧
    (∀ m : Fin 4096, stat_to_permissions m.val = statToPermissions m.val) ∧
    permAsStr (statToPermissions 0o777) = "rwxrwxrwx" ∧
    permAsStr (statToPermissions 0o700) = "rwx------" ∧
    permAsStr (statToPermissions 0o644) = "rw-r--r--" := by
  refine ⟨fun m => stat_eq_spec m.val, fun m => rfl, ?_, ?_, ?_⟩ <;> decide

/- ------------------------------------------------- -/
/- File handle cursor: seek, write (`OnedataFile`)   -/
/- ------------------------------------------------- -/

/-- `fs.Seek.set` (= `io.SEEK_SET` = 0). -/
def Seek.set : Int := 0

/-- `fs.Seek.current` (= `io.SEEK_CUR` = 1). -/
def Seek.current : Int := 1

/-- `fs.Seek.end` (= `io.SEEK_END` = 2); `end` is a Lean keyword, hence the
name `seekEnd`. -/
def Seek.seekEnd : Int := 2

/-- Mutable cursor state of an `OnedataFile` (`self.pos`, a signed Python
int starting at 0). -/
structure FileState where
  pos : Int
deriving DecidableEq

/-- `OnedataFile.seek(pos, whence)`: raises `ValueError` when `whence` is not
one of `Seek.set`/`Seek.current`/`Seek.end`; otherwise it fetches the file
size (`size` models the result of the metadata lookup, which the body never
uses) and assigns `self.pos = pos` unconditionally, returning `self.tell()`.
Result: the new state and the returned position. -/
def OnedataFile.seek (size : Nat) (st : FileState) (pos : Int) (whence : Int) :
    Except PyError (FileState × Int) :=
  if ¬ (whence = Seek.set ∨ whence = Seek.current ∨ whence = Seek.seekEnd)
  then Except.error PyError.valueError
  else
    let _sz := size
    let _old := st.pos
    Except.ok (FileState.mk pos, pos)

/-- `OnedataFile.write(data)`: raises `IOError` when not opened for writing;
otherwise issues one positioned write of `data` at the current cursor and
advances the cursor by `len(data)`.  Result: the offset handed to the
underlying `handle.write`, the new state, and the returned byte count. -/
def OnedataFile.write (modeWriting : Bool) (st : FileState) (data : List Nat) :
    Except PyError (Int × FileState × Nat) :=
  if ¬ modeWriting then Except.error PyError.ioError
  else Except.ok (st.pos, FileState.mk (st.pos + data.length), data.length)

/-- Claim C4 (counter-evidence): the code validates `whence` but then ignores
it when computing the new position: with file size 10 and cursor 5,
`seek(2, Seek.current)` yields position 2 (the standard contract requires
5 + 2 = 7) and `seek(2, Seek.end)` also yields 2 (the contract requires
10 + 2 = 12).  The fetched size is never used. -/
theorem seek_ignores_whence :
    OnedataFile.seek 10 (FileState.mk 5) 2 Seek.current
      = Except.ok (FileState.mk 2, 2) ∧
    OnedataFile.seek 10 (FileState.mk 5) 2 Seek.seekEnd
      = Except.ok (FileState.mk 2, 2) ∧
    (5 + 2 : Int) ≠ 2 ∧ (10 + 2 : Int) ≠ 2 := by
  refine ⟨?_, ?_, by decide, by decide⟩ <;> rfl

/-- Claim C10: for every cursor state, every integer `pos` (including
negative ones) and every valid `whence`, `seek` neither raises nor clamps:
it stores `pos` unchanged and returns it; a subsequent write is issued to the
underlying handle at exactly that (possibly negative) offset. -/
theorem seek_no_clamp (size : Nat) (st : FileState) (pos : Int) (whence : Int)
    (data : List Nat)
    (h : whence = Seek.set ∨ whence = Seek.current ∨ whence = Seek.seekEnd) :
    OnedataFile.seek size st pos whence = Except.ok (FileState.mk pos, pos) ∧
    OnedataFile.write true (FileState.mk pos) data
      = Except.ok (pos, FileState.mk (pos + data.length), data.length) := by
  constructor
  · simp [OnedataFile.seek, h]
  · simp [OnedataFile.write]

/-- Witness for C10 at a concrete negative position: seeking to -5 with
`whence = Seek.current` succeeds, leaves the cursor at -5, and a write of one
byte is issued at offset -5. -/
theorem seek_no_clamp_witness :
    OnedataFile.seek 10 (FileState.mk 0) (-5) Seek.current
      = Except.ok (FileState.mk (-5), -5) ∧
    OnedataFile.write true (FileState.mk (-5)) [7]
      = Except.ok (-5, FileState.mk (-4), 1) := by
  have h := seek_no_clamp 10 (FileState.mk 0) (-5) Seek.current [7]
    (Or.inr (Or.inl rfl))
  exact ⟨h.1, by simpa using h.2⟩

/- -------------------------------------- -/
/- File handle truncate (`OnedataFile`)   -/
/- -------------------------------------- -/

/-- The attribute names bound on an `OnedataFile` instance by `__init__`
(`self.odfs`, `self.handle`, `self.path`, `self.mode`, `self.pos`,
`self._lock`); neither the class nor its base `io.RawIOBase` defines an
attribute named `_opfs`. -/
def OnedataFile.instanceAttrs : List String :=
  ["odfs", "handle", "path", "mode", "pos", "_lock"]

/-- `OnedataFile.truncate(size=None)`: substitutes 0 for a missing size, then
evaluates `self._opfs` - an attribute that does not exist (the constructor
binds `self.odfs`) - so the attribute lookup raises `AttributeError` before
any remote truncate call is issued; the `return size` line is unreachable. -/
def OnedataFile.truncate (size : Option Nat) : Except PyError Nat :=
  let sz := size.getD 0
  if "_opfs" ∈ OnedataFile.instanceAttrs then Except.ok sz
  else Except.error PyError.attributeError

/-- Claim C5 (counter-evidence): every call to `truncate` - with any explicit
size or with the size omitted - raises `AttributeError` instead of resizing
the file and returning the new size. -/
theorem truncate_always_raises (size : Option Nat) :
    OnedataFile.truncate size = Except.error PyError.attributeError := by
  cases size <;> rfl

/- ------------------------------------------ -/
/- File handle chunked read (`OnedataFile`)   -/
/- ------------------------------------------ -/

/-- `fs.constants.DEFAULT_CHUNK_SIZE`, the external chunk-size constant
(1 MiB in PyFilesystem2).  The proofs below rely only on its positivity. -/
def DEFAULT_CHUNK_SIZE : Nat := 1024 * 1024

/-- The `read_size` computed per loop iteration: the full chunk constant when
the caller asked to read to end (`remaining < 0`), else
`min(DEFAULT_CHUNK_SIZE, remaining)`. -/
def readSize (remaining : Int) : Nat :=
  if remaining < 0 then DEFAULT_CHUNK_SIZE else min DEFAULT_CHUNK_SIZE remaining.toNat

/-- The underlying positioned read `self.handle.read(pos, size)`: the slice
of the backing content starting at `pos` of at most `size` bytes (empty at or
past end-of-file). -/
def handleRead (content : List Nat) (pos sz : Nat) : List Nat :=
  (content.drop pos).take sz

/-- The `while remaining:` loop of `OnedataFile.read`: fetches positioned
chunks, stops when `remaining` reaches 0 or a chunk comes back empty, and
advances the cursor by the length of each returned chunk.  Returns the
concatenated bytes and the final cursor. -/
def readLoop (content : List Nat) (pos : Nat) (remaining : Int) : List Nat × Nat :=
  if remaining = 0 then ([], pos)
  else
    if h : (handleRead content pos (readSize remaining)).length = 0 then ([], pos)
    else
      let r := readLoop content (pos + (handleRead content pos (readSize remaining)).length)
        (remaining - (handleRead content pos (readSize remaining)).length)
      (handleRead content pos (readSize remaining) ++ r.1, r.2)
termination_by content.length - pos
decreasing_by
  have h1 : (handleRead content pos (readSize remaining)).length
      = min (readSize remaining) (content.length - pos) := by
    simp [handleRead]
  have h2 : min (readSize remaining) (content.length - pos) ≤ content.length - pos :=
    Nat.min_le_right _ _
  omega

/-- `OnedataFile.read(size)`: raises `IOError` when the handle was not opened
for reading, otherwise runs the chunked loop from the current cursor and
returns the bytes together with the new cursor position. -/
def OnedataFile.read (modeReading : Bool) (content : List Nat) (pos : Nat) (size : Int) :
    Except PyError (List Nat × Nat) :=
  if ¬ modeReading then Except.error PyError.ioError
  else Except.ok (readLoop content pos size)

/-- Helper: a take followed by dropping exactly the taken prefix's length
reassembles the list. -/
theorem take_append_drop_length (m : Nat) (l : List Nat) :
    l.take m ++ l.drop (l.take m).length = l := by
  rcases le_or_lt m l.length with h | h
  · rw [List.length_take, Nat.min_eq_left h, List.take_append_drop]
  · rw [List.take_of_length_le (Nat.le_of_lt h), List.drop_length, List.append_nil]

/-- Helper: at or past end-of-file the loop returns no bytes and leaves the
cursor where it was (the first chunk comes back empty). -/
theorem readLoop_at_end (content : List Nat) (pos : Nat) (hpos : content.length ≤ pos)
    (remaining : Int) : readLoop content pos remaining = ([], pos) := by
  rw [readLoop.eq_def]
  by_cases h0 : remaining = 0
  · rw [if_pos h0]
  · have hc : (handleRead content pos (readSize remaining)).length = 0 := by
      simp [handleRead, List.drop_eq_nil_of_le hpos]
    rw [if_neg h0, dif_pos hc]

/-- Helper: a read-to-end (`remaining < 0`) starting inside the file returns
exactly the suffix from the cursor and leaves the cursor at the file length. -/
theorem readLoop_neg_aux (n : Nat) : ∀ (content : List Nat) (pos : Nat) (remaining : Int),
    content.length - pos ≤ n → remaining < 0 → pos ≤ content.length →
    readLoop content pos remaining = (content.drop pos, content.length) := by
  induction n with
  | zero =>
    intro content pos remaining hn _ hle
    have hpos : pos = content.length := by omega
    subst hpos
    rw [readLoop_at_end content content.length (Nat.le_refl _) remaining,
      List.drop_length]
  | succ n ih =>
    intro content pos remaining hn hneg hle
    rcases Nat.eq_or_lt_of_le hle with heq | hlt
    · subst heq
      rw [readLoop_at_end content content.length (Nat.le_refl _) remaining,
        List.drop_length]
    · have h0 : ¬ remaining = 0 := by omega
      have hcl : (handleRead content pos (readSize remaining)).length
          = min DEFAULT_CHUNK_SIZE (content.length - pos) := by
        simp [handleRead, readSize, if_pos hneg]
      have hchunk : 0 < DEFAULT_CHUNK_SIZE := by norm_num [DEFAULT_CHUNK_SIZE]
      have hc : ¬ (handleRead content pos (readSize remaining)).length = 0 := by
        rw [hcl]
        omega
      rw [readLoop.eq_def, if_neg h0, dif_neg hc]
      have hclen : (handleRead content pos (readSize remaining)).length ≤ content.length - pos := by
        rw [hcl]
        omega
      have hneg2 : remaining - ((handleRead content pos (readSize remaining)).length : Int) < 0 := by
        omega
      have hih := ih content (pos + (handleRead content pos (readSize remaining)).length)
        (remaining - (handleRead content pos (readSize remaining)).length)
        (by omega) hneg2 (by omega)
      simp only [hih]
      have hjoin : handleRead content pos (readSize remaining)
          ++ content.drop (pos + (handleRead content pos (readSize remaining)).length)
          = content.drop pos := by
        simp only [handleRead]
        rw [← List.drop_drop]
        exact take_append_drop_length (readSize remaining) (content.drop pos)
      rw [hjoin]

/-- Helper: the final cursor always equals the initial cursor plus the number
of bytes actually returned. -/
theorem readLoop_cursor_aux (n : Nat) : ∀ (content : List Nat) (pos : Nat) (remaining : Int),
    content.length - pos ≤ n →
    (readLoop content pos remaining).2 = pos + (readLoop content pos remaining).1.length := by
  induction n with
  | zero =>
    intro content pos remaining hn
    rw [readLoop_at_end content pos (by omega) remaining]
    simp
  | succ n ih =>
    intro content pos remaining hn
    by_cases h0 : remaining = 0
    · rw [readLoop.eq_def, if_pos h0]
      simp
    · by_cases hc : (handleRead content pos (readSize remaining)).length = 0
      · rw [readLoop.eq_def, if_neg h0, dif_pos hc]
        simp
      · rw [readLoop.eq_def, if_neg h0, dif_neg hc]
        have hclen : (handleRead content pos (readSize remaining)).length ≤ content.length - pos := by
          have : (handleRead content pos (readSize remaining)).length
              = min (readSize remaining) (content.length - pos) := by
            simp [handleRead]
          omega
        have hih := ih content (pos + (handleRead content pos (readSize remaining)).length)
          (remaining - (handleRead content pos (readSize remaining)).length) (by omega)
        simp only [List.length_append, hih]
        omega

/-- Claim C6: for every readable handle over N bytes of content with cursor
at 0, `read(-1)` returns exactly the N content bytes and leaves the cursor at
N; a second `read(-1)` (cursor at N) returns zero bytes; and in every read
the final cursor equals the initial cursor plus exactly the bytes actually
returned by the chunks (an empty chunk stops the loop). -/
theorem read_all_exact (content : List Nat) :
    OnedataFile.read true content 0 (-1) = Except.ok (content, content.length) ∧
    OnedataFile.read true content content.length (-1)
      = Except.ok ([], content.length) ∧
    (∀ pos size, (readLoop content pos size).2 = pos + (readLoop content pos size).1.length) := by
  refine ⟨?_, ?_, ?_⟩
  · have h := readLoop_neg_aux content.length content 0 (-1) (by omega) (by norm_num)
      (by omega)
    simp [OnedataFile.read, h]
  · have h := readLoop_at_end content content.length (Nat.le_refl _) (-1)
    simp [OnedataFile.read, h]
  · intro pos size
    exact readLoop_cursor_aux content.length content pos size (by omega)

/- ----------------------------------------------- -/
/- Directory emptiness probe (`OnedataFS.isempty`) -/
/- ----------------------------------------------- -/

/-- Python truthiness of a list (`bool(lst)` / `if lst:`): non-empty lists
are truthy, the empty list is falsy. -/
def pyTruthy (l : List String) : Bool := !l.isEmpty

/-- `OnedataFS.isempty(path)` from the source: `return self._odfs.readdir(
_path, 1, 0)` - it returns the raw 1-entry listing probe itself (a Python
list), not a boolean.  `readdir maxSize offset` models the remote listing
primitive for the probed directory. -/
def OnedataFS.isempty (readdir : Nat → Nat → List String) : List String :=
  readdir 1 0

/-- Claim C3 (counter-evidence): `isempty` does not return a boolean at all;
it returns the probe list, whose truthiness is moreover inverted relative to
the documented boolean: on an empty directory the result is `[]` (falsy,
where the claim requires `True`) and on a non-empty directory it is a
one-entry list (truthy, where the claim requires `False`). -/
theorem isempty_returns_probe_list :
    OnedataFS.isempty (fun _ _ => []) = [] ∧
    pyTruthy (OnedataFS.isempty (fun _ _ => [])) = false ∧
    OnedataFS.isempty (fun _ _ => ["child"]) = ["child"] ∧
    pyTruthy (OnedataFS.isempty (fun _ _ => ["child"])) = true := by
  exact ⟨rfl, rfl, rfl, rfl⟩

/- ----------------------------------------- -/
/- Directory removal (`OnedataFS.removedir`) -/
/- ----------------------------------------- -/

/-- The remote metadata record returned by `self._odfs.stat` (the fields
`removedir` consults). -/
structure StatRecord where
  mode : Nat
  size : Nat
deriving DecidableEq

/-- `OnedataFS.getinfo`'s stat step, as reached from `removedir`: when the
remote stat succeeds it yields the record; when the remote raises
`RuntimeError('No such file or directory')` the handler evaluates
`error.message`, an attribute Python 3 exceptions do not have, so the lookup
surfaces as `AttributeError` rather than `ResourceNotFound`. -/
def getinfoStat (statr : Option StatRecord) : Except PyError StatRecord :=
  match statr with
  | none => Except.error PyError.attributeError
  | some a => Except.ok a

/-- `OnedataFS.removedir(path)`:
`_path = toAscii(validatepath(path))` is a `bytes` value, so the guard
`_path == "/"` compares `bytes` to `str` and is always `False` in Python 3;
then the target must exist and be a directory; then
`if not self.isempty(path)` tests the truthiness of the probe *list*; only
then is `self._odfs.unlink(_path)` reached.  `path` is assumed already
normalized (as `validatepath` leaves normalized paths unchanged);
`Except.ok ()` means the remote unlink call was issued. -/
def OnedataFS.removedir (statr : Option StatRecord) (readdir : Nat → Nat → List String)
    (path : String) : Except PyError Unit :=
  if pyEq (toAscii path) (PyVal.pstr "/") then Except.error PyError.removeRootError
  else
    match getinfoStat statr with
    | Except.error e => Except.error e
    | Except.ok info =>
      if ¬ S_ISDIR info.mode then Except.error PyError.directoryExpected
      else if ¬ pyTruthy (OnedataFS.isempty readdir) then
        Except.error PyError.directoryNotEmpty
      else Except.ok ()

/-- A directory stat record (mode 0o40755). -/
def dirStat : StatRecord := StatRecord.mk 0o40755 0

/-- Claim C1 (counter-evidence): with the probe-list truthiness bug the
emptiness test is inverted, and the root guard is dead code in Python 3:
(1) `removedir` on a non-empty directory issues the remote unlink (no
`DirectoryNotEmpty`); (2) `removedir` on an *empty* directory raises
`DirectoryNotEmpty`; (3) `removedir("/")` on a non-empty root does not raise
`RemoveRootForbidden` - it issues the unlink. -/
theorem removedir_inverted_and_root_dead :
    OnedataFS.removedir (some dirStat) (fun _ _ => ["child"]) "/data" = Except.ok () ∧
    OnedataFS.removedir (some dirStat) (fun _ _ => []) "/data"
      = Except.error PyError.directoryNotEmpty ∧
    OnedataFS.removedir (some dirStat) (fun _ _ => ["space1"]) "/" = Except.ok () := by
  exact ⟨rfl, rfl, rfl⟩

/- -------------------------------------------- -/
/- Extended attributes (`OnedataFS.setxattr`)   -/
/- -------------------------------------------- -/

/-- One call to the remote client, as issued by the xattr operations. -/
inductive RemoteCall where
  | statCall (p : PyVal)
  | getxattrCall (p n : PyVal)
  | setxattrCall (p n v : PyVal)
deriving DecidableEq

/-- The remote extended-attribute store: attribute values per (path, name). -/
def XattrStore : Type := String → String → Option String

/-- The remote `getxattr` primitive: the stored value, or a remote failure
when the attribute is absent. -/
def remoteGetxattr (store : XattrStore) (p n : String) : Except PyError String :=
  match store p n with
  | some v => Except.ok v
  | none => Except.error PyError.remoteError

/-- `OnedataFS.setxattr(path, name, value)` from the source: validates the
path via `getinfo` (a remote stat), then - instead of invoking the remote
set-attribute primitive - executes `return self._odfs.getxattr(_path,
_name)`.  The result is the store after the call (unchanged), the trace of
remote calls issued, and the returned value; `value` is never transmitted.
`pathExists` models whether `getinfo` succeeds for `path`. -/
def OnedataFS.setxattr (pathExists : Bool) (store : XattrStore)
    (path name value : String) :
    XattrStore × List RemoteCall × Except PyError String :=
  let _v := value
  if ¬ pathExists then
    (store, [RemoteCall.statCall (toAscii path)], Except.error PyError.attributeError)
  else
    (store,
     [RemoteCall.statCall (toAscii path),
      RemoteCall.getxattrCall (toAscii path) (toAscii name)],
     remoteGetxattr store path name)

/-- A store holding one attribute: `user.k = "old"` on `/f`. -/
def oneAttrStore : XattrStore :=
  fun p n => if p = "/f" ∧ n = "user.k" then some "old" else none

/-- Claim C2 (counter-evidence): `setxattr("/f", "user.k", "new")` on a
resolving path succeeds but issues only a stat and a *get* call (no remote
set-attribute call appears in the trace), returns the old value, and leaves
the store unchanged, so the subsequent `getxattr` returns `"old"`, not the
value `"new"` that was supposedly stored. -/
theorem setxattr_invokes_get_not_set :
    (OnedataFS.setxattr true oneAttrStore "/f" "user.k" "new").2.1
      = [RemoteCall.statCall (PyVal.pbytes "/f"),
         RemoteCall.getxattrCall (PyVal.pbytes "/f") (PyVal.pbytes "user.k")] ∧
    (OnedataFS.setxattr true oneAttrStore "/f" "user.k" "new").2.2
      = Except.ok "old" ∧
    (OnedataFS.setxattr true oneAttrStore "/f" "user.k" "new").1 "/f" "user.k"
      = some "old" ∧
    remoteGetxattr (OnedataFS.setxattr true oneAttrStore "/f" "user.k" "new").1
        "/f" "user.k" = Except.ok "old" ∧
    "old" ≠ "new" := by
  exact ⟨rfl, rfl, rfl, rfl, by decide⟩

/- ---------------------------------------------- -/
/- Paginated directory listing (`OnedataFS.listdir`) -/
/- ---------------------------------------------- -/

/-- The fixed page size of `OnedataFS.listdir` (`batch_size = 2500`). -/
def batchSize : Nat := 2500

/-- The fetch loop of `OnedataFS.listdir`: fetch
`batch = readdir(batchSize, offset)`; an empty batch ends the loop with the
accumulated set; otherwise every entry is added to the set
(`_directory.add`), the offset advances by the raw batch length, and the next
page is fetched.  The `fuel` argument caps the number of fetches so the
(possibly non-terminating) `while True:` loop is total in the embedding:
`none` means the loop was still running when the cap was reached. -/
def OnedataFS.listdirLoop {α : Type} [DecidableEq α] (readdir : Nat → Nat → List α) :
    Nat → Nat → Finset α → Option (Finset α)
  | 0, _, _ => none
  | Nat.succ fuel, offset, acc =>
    if (readdir batchSize offset).isEmpty then some acc
    else OnedataFS.listdirLoop readdir fuel (offset + (readdir batchSize offset).length)
      (acc ∪ (readdir batchSize offset).toFinset)

/-- `OnedataFS.listdir(path)` for a given directory: drives the loop from
offset 0 with an empty accumulated set. -/
def OnedataFS.listdir {α : Type} [DecidableEq α] (readdir : Nat → Nat → List α)
    (fuel : Nat) : Option (Finset α) :=
  OnedataFS.listdirLoop readdir fuel 0 ∅

/-- The sequence of offsets the loop requests: each offset is the previous
one plus the raw length of the page fetched there, i.e. the cumulative count
of entries seen so far. -/
def offsetOrbit {α : Type} (readdir : Nat → Nat → List α) : Nat → Nat
  | 0 => 0
  | Nat.succ n => offsetOrbit readdir n + (readdir batchSize (offsetOrbit readdir n)).length

/-- A well-behaved remote source backed by a fixed entry list: the page at
`offset` is the next `maxSize` entries of the list.  Backing `entries` of
length 5137 yields pages of sizes 2500, 2500, 137, 0. -/
def sliceSrc {α : Type} (entries : List α) (maxSize offset : Nat) : List α :=
  (entries.drop offset).take maxSize

/-- Helper: if the source returns an empty page at the n-th requested offset,
the loop halts within n+1 fetches (from any starting point k of the orbit and
any accumulated set). -/
theorem listdirLoop_halts {α : Type} [DecidableEq α] (readdir : Nat → Nat → List α) :
    ∀ (n k : Nat) (acc : Finset α),
      readdir batchSize (offsetOrbit readdir (k + n)) = [] →
      ∃ acc2, OnedataFS.listdirLoop readdir (n + 1) (offsetOrbit readdir k) acc = some acc2 := by
  intro n
  induction n with
  | zero =>
    intro k acc h
    refine ⟨acc, ?_⟩
    have h2 : readdir batchSize (offsetOrbit readdir k) = [] := by simpa using h
    simp [OnedataFS.listdirLoop, h2]
  | succ n ih =>
    intro k acc h
    by_cases hb : (readdir batchSize (offsetOrbit readdir k)).isEmpty
    · exact ⟨acc, by simp [OnedataFS.listdirLoop, hb]⟩
    · have h2 : readdir batchSize (offsetOrbit readdir ((k + 1) + n)) = [] := by
        have : (k + 1) + n = k + (n + 1) := by omega
        rw [this]
        exact h
      obtain ⟨acc2, hacc2⟩ := ih (k + 1)
        (acc ∪ (readdir batchSize (offsetOrbit readdir k)).toFinset) h2
      refine ⟨acc2, ?_⟩
      rw [OnedataFS.listdirLoop, if_neg (by simpa using hb)]
      exact hacc2

/-- Helper: on a slice-backed source with the invariant accumulator
(the entries before `pos`), the loop returns the whole entry set provided the
fuel covers the remaining pages. -/
theorem listdirLoop_slice {α : Type} [DecidableEq α] (entries : List α) :
    ∀ (fuel pos : Nat),
      pos ≤ entries.length →
      entries.length - pos ≤ batchSize * (fuel - 1) →
      1 ≤ fuel →
      OnedataFS.listdirLoop (sliceSrc entries) fuel pos (entries.take pos).toFinset
        = some entries.toFinset := by
  intro fuel
  induction fuel with
  | zero =>
    intro pos _ _ hf
    omega
  | succ fuel ih =>
    intro pos hle hbound _
    by_cases hb : ((entries.drop pos).take batchSize).isEmpty
    · have hdrop : entries.drop pos = [] := by
        rcases List.take_eq_nil_iff.mp (List.isEmpty_iff.mp hb) with h | h
        · exact absurd h (by norm_num [batchSize])
        · exact h
      have hpos : pos = entries.length := by
        have := List.drop_eq_nil_iff.mp hdrop
        omega
      subst hpos
      rw [OnedataFS.listdirLoop, if_pos (by simpa [sliceSrc] using hb),
        List.take_length]
    · have hlt : pos < entries.length := by
        by_contra hge
        have : entries.drop pos = [] := List.drop_eq_nil_of_le (by omega)
        simp [this] at hb
      have hblen : ((entries.drop pos).take batchSize).length
          = min batchSize (entries.length - pos) := by
        simp
      have hbpos : 0 < ((entries.drop pos).take batchSize).length := by
        rw [hblen]
        norm_num [batchSize]
        omega
      have hfuel : 1 ≤ fuel := by
        have : 0 < entries.length - pos := by omega
        by_contra hf0
        have : fuel = 0 := by omega
        subst this
        simp [batchSize] at hbound
        omega
      have hacc : (entries.take pos).toFinset ∪ ((entries.drop pos).take batchSize).toFinset
          = (entries.take (pos + ((entries.drop pos).take batchSize).length)).toFinset := by
        rw [← List.toFinset_append]
        rcases le_or_lt batchSize (entries.length - pos) with hcase | hcase
        · have : pos + ((entries.drop pos).take batchSize).length = pos + batchSize := by
            rw [hblen]
            omega
          rw [this, List.take_add]
        · have h1 : pos + ((entries.drop pos).take batchSize).length = entries.length := by
            rw [hblen]
            omega
          rw [h1, List.take_length]
          have h2 : (entries.drop pos).take batchSize = entries.drop pos :=
            List.take_of_length_le (by simp; omega)
          rw [h2, List.take_append_drop]
      rw [OnedataFS.listdirLoop, if_neg (by simpa [sliceSrc] using hb)]
      have hstep := ih (pos + ((entries.drop pos).take batchSize).length)
        (by rw [hblen]; omega)
        (by
          rw [hblen]
          simp only [batchSize] at hbound ⊢
          omega)
        hfuel
      show OnedataFS.listdirLoop (sliceSrc entries) fuel
          (pos + (sliceSrc entries batchSize pos).length)
          ((entries.take pos).toFinset ∪ (sliceSrc entries batchSize pos).toFinset)
        = some entries.toFinset
      rw [show sliceSrc entries batchSize pos = (entries.drop pos).take batchSize from rfl,
        hacc]
      exact hstep

/-- Claim C7: provided the remote readdir source eventually returns an empty
page at one of the requested offsets (each offset being the cumulative count
of entries seen so far), `listdir` terminates with an accumulated entry set;
in particular, for the slice-backed source over 5137 distinct entries - whose
pages have sizes 2500, 2500, 137, 0 - `listdir` returns exactly 5137 unique
entries. -/
theorem listdir_terminates_and_counts {α : Type} [DecidableEq α]
    (readdir : Nat → Nat → List α) (n : Nat)
    (h : readdir batchSize (offsetOrbit readdir n) = []) :
    (∃ acc, OnedataFS.listdir readdir (n + 1) = some acc) ∧
    (∃ acc, OnedataFS.listdir (sliceSrc (List.range 5137)) 4 = some acc ∧
      acc.card = 5137) := by
  constructor
  · have h0 : readdir batchSize (offsetOrbit readdir (0 + n)) = [] := by
      simpa using h
    obtain ⟨acc2, hacc2⟩ := listdirLoop_halts readdir n 0 ∅ h0
    refine ⟨acc2, ?_⟩
    simpa [OnedataFS.listdir, offsetOrbit] using hacc2
  · refine ⟨(List.range 5137).toFinset, ?_, ?_⟩
    · have h := listdirLoop_slice (List.range 5137) 4 0
        (by simp) (by simp [batchSize]) (by omega)
      simpa [OnedataFS.listdir] using h
    · rw [List.toFinset_card_of_nodup (List.nodup_range 5137), List.length_range]

/-- Witness for C7: a source whose very first page is empty makes `listdir`
halt immediately, and the 5137-entry slice-backed instance holds. -/
theorem listdir_terminates_and_counts_witness :
    (∃ acc, OnedataFS.listdir (fun _ _ => ([] : List Nat)) (0 + 1) = some acc) ∧
    (∃ acc, OnedataFS.listdir (sliceSrc (List.range 5137)) 4 = some acc ∧
      acc.card = 5137) :=
  listdir_terminates_and_counts (fun _ _ => ([] : List Nat)) 0 rfl
